import Mathlib

/-!
Verification development for the text-to-video social posting backend.

The Python modules `social/router.py`, `social/utils.py`,
`social/youtube_uploader.py`, `social/platform_integrations.py` and
`social/config.py` are embedded shallowly: Python strings become lists of
characters, database tables become lists of rows, and every network call is
driven by an explicit oracle value so that the control flow around it can be
stated and proved.
-/

namespace App

/-- Python strings are modelled as lists of characters (code points), so that
slicing `s[:n]` is `List.take n` and per-character operations are list maps. -/
abbrev Str := List Char

/-- Python `s.strip()`: drop leading and trailing whitespace. -/
def pyStrip (s : Str) : Str :=
  ((s.dropWhile Char.isWhitespace).reverse.dropWhile Char.isWhitespace).reverse

/-- Python `s.replace("#", "")` for the one-character pattern: every
occurrence of `#` is removed, which is exactly a filter. -/
def removeHash (s : Str) : Str := s.filter (fun c => c ≠ '#')

/-- Python `s.split(":")`: split into the (always nonempty) list of parts
separated by `:`; adjacent separators produce empty parts. -/
def splitColon : Str → List Str
  | [] => [[]]
  | c :: cs =>
    if c = ':' then [] :: splitColon cs
    else
      match splitColon cs with
      | [] => [[c]]
      | p :: ps => (c :: p) :: ps

/-! ## Configuration constants (`social/config.py`, `YOUTUBE_CONFIG`) -/

/-- `YOUTUBE_CONFIG["MAX_RETRIES"]`. -/
def MAX_RETRIES : Nat := 3

/-- `YOUTUBE_CONFIG["RETRIABLE_STATUS_CODES"]`. -/
def RETRIABLE_STATUS_CODES : List Nat := [500, 502, 503, 504]

/-- `YOUTUBE_CONFIG["MAX_FILE_SIZE"]`, 128 GiB. -/
def MAX_FILE_SIZE : Nat := 128 * 1024 * 1024 * 1024

/-! ## YouTube metadata bodies (claim C3)

Three places in the source build the `snippet` part of the YouTube request
body; all three are embedded. -/

/-- The `snippet` object of a YouTube `videos.insert` request body. -/
structure Snippet where
  title : Str
  description : Str
  tags : List Str
  categoryId : Str
deriving Repr, DecidableEq

namespace YouTubeUploader

/-- `social/youtube_uploader.py`, `upload_video`:
`[tag.replace("#", "").strip() for tag in tags if tag.strip()][:50]`. -/
def clean_tags (tags : List Str) : List Str :=
  ((tags.filter (fun t => pyStrip t ≠ [])).map (fun t => pyStrip (removeHash t))).take 50

/-- The `snippet` of `request_body` built by
`YouTubeUploader.upload_video`: title sliced to 100, description sliced to
5000 (empty description short-circuits to the empty string), tags cleaned
and capped at 50. -/
def request_snippet (title description : Str) (tags : List Str)
    (category_id : Str) : Snippet :=
  { categoryId := category_id
    title := title.take 100
    description := if description = [] then [] else description.take 5000
    tags := clean_tags tags }

end YouTubeUploader

namespace YouTubeIntegration

/-- The `snippet` built by `YouTubeIntegration.post_video` in
`social/platform_integrations.py`:
`"tags": [tag.replace("#", "") for tag in post_data["tags"][:500]]` —
the slice is 500 entries, and the tags are neither trimmed nor filtered. -/
def post_snippet (title description : Str) (tags : List Str)
    (category_id : Str) : Snippet :=
  { title := title.take 100
    description := if description = [] then [] else description.take 5000
    tags := (tags.take 500).map removeHash
    categoryId := category_id }

end YouTubeIntegration

namespace YouTubeAPI

/-- The `snippet` of the `body` built by `YouTubeAPI.upload_video` in
`social/utils.py`: `"tags": tags[:50] if tags else []`, no `#` removal. -/
def body_snippet (title description : Str) (tags : List Str)
    (category_id : Str) : Snippet :=
  { title := title.take 100
    description := description.take 5000
    tags := tags.take 50
    categoryId := category_id }

end YouTubeAPI

/-! ## The chunked-upload retry loops (claim C4) -/

/-- One observed outcome of a call to `insert_request.next_chunk()` inside
`YouTubeAPI.upload_video` (`social/utils.py`). -/
inductive ChunkOutcome where
  /-- the chunk was accepted but the upload is not finished
  (`status` truthy, `response` still `None`) -/
  | progress
  /-- the final response arrived; it carries an `id` field or not -/
  | done (videoId : Option Str)
  /-- `googleapiclient.errors.HttpError` with the given status and content -/
  | httpError (stat : Nat) (content : Str)
  /-- any other exception (network failure, timeout, ...) -/
  | netError (msg : Str)
deriving Repr, DecidableEq

/-- A Python exception escaping the utils.py upload loop. -/
inductive PyExc where
  /-- `Exception(f"Max retries exceeded: {error}")` where `error` is the last
  retriable failure text `f"HTTP error {e.resp.status}: {e.content}"` -/
  | maxRetries (stat : Nat) (content : Str)
  /-- a re-raised non-retriable `HttpError` -/
  | http (stat : Nat) (content : Str)
  /-- a re-raised network / timeout exception -/
  | net (msg : Str)
deriving Repr, DecidableEq

/-- Result of the `while response is None` loop in `YouTubeAPI.upload_video`
(`social/utils.py`): either the final response, an escaped exception, or
`starved` when the event oracle is exhausted (the real loop would simply
keep polling). -/
inductive LoopResult where
  | finished (videoId : Option Str)
  | raised (exc : PyExc)
  | starved
deriving Repr, DecidableEq

/-- The retry loop of `YouTubeAPI.upload_video` (`social/utils.py`).
`retry` is the cumulative retry counter (`retry = 0` initially); a retriable
HTTP status increments it and re-polls the same chunk unless the counter
exceeds `MAX_RETRIES`; a non-retriable status or any other exception is
re-raised at once. -/
def upload_loop (retry : Nat) : List ChunkOutcome → LoopResult
  | [] => .starved
  | ev :: evs =>
    match ev with
    | .progress => upload_loop retry evs
    | .done vid => .finished vid
    | .httpError stat content =>
      if stat ∈ RETRIABLE_STATUS_CODES then
        if retry + 1 > MAX_RETRIES then .raised (.maxRetries stat content)
        else upload_loop (retry + 1) evs
      else .raised (.http stat content)
    | .netError m => .raised (.net m)

/-- One observed outcome of a call to `request.next_chunk()` inside
`YouTubeUploader.upload_video` (`social/youtube_uploader.py`). -/
inductive UploaderEvent where
  | progress
  /-- the final response dict; `some id` when it contains an `id` field -/
  | done (videoId : Option Str)
  /-- any exception: logged and the chunk re-tried (`continue`) -/
  | exc (msg : Str)
deriving Repr, DecidableEq

/-- The `while response is None` loop of `YouTubeUploader.upload_video`:
every exception is swallowed and the chunk re-polled, so the loop exits only
on a final response; `none` models the loop still running when the oracle is
exhausted. -/
def uploader_loop : List UploaderEvent → Option (Option Str)
  | [] => none
  | .progress :: evs => uploader_loop evs
  | .done r :: _ => some r
  | .exc _ :: evs => uploader_loop evs

/-! ## Data model (`social/models.py`) -/

/-- The JSONB `platform_metadata` written by the YouTube OAuth callbacks:
subscriber, video and view counts (`"channel_type": "personal"` is constant
and omitted). -/
structure ChannelMeta where
  subscriber_count : Nat
  video_count : Nat
  view_count : Nat
deriving Repr, DecidableEq

/-- A row of the `social_accounts` table, restricted to the columns the
claims touch. -/
structure SocialAccount where
  user_id : Str
  platform : Str
  platform_user_id : Option Str := none
  platform_username : Str := []
  platform_email : Option Str := none
  display_name : Option Str := none
  primary_id : Option Str := none
  access_token : Str := []
  refresh_token : Option Str := none
  token_expires_at : Option Nat := none
  is_active : Bool := true
  is_verified : Bool := false
  last_token_refresh : Option Nat := none
  platform_metadata : Option ChannelMeta := none
deriving Repr, DecidableEq

/-- The token payload of a successful response from
`https://oauth2.googleapis.com/token`; `expires_in` defaults to 3600 via
`tokens.get("expires_in", 3600)`. -/
structure TokenBundle where
  access_token : Str
  refresh_token : Option Str := none
  expires_in : Nat := 3600
deriving Repr, DecidableEq

/-- The channel object extracted from a successful
`youtube/v3/channels?mine=true` response. -/
structure ChannelInfo where
  channel_id : Str
  channel_title : Str
  subscriber_count : Nat := 0
  video_count : Nat := 0
  view_count : Nat := 0
deriving Repr, DecidableEq

/-! ## Local file system and network-call traces -/

/-- The local file system: the association of existing paths to their byte
size, consulted by `os.path.exists` and `os.path.getsize`. -/
structure FileSys where
  files : List (Str × Nat)
deriving Repr, DecidableEq

/-- `os.path.exists`. -/
def FileSys.pathExists (fs : FileSys) (p : Str) : Bool :=
  fs.files.any (fun f => f.1 = p)

/-- `os.path.getsize` (0 as a junk value on a missing path; the code only
calls it after the existence check). -/
def FileSys.getsize (fs : FileSys) (p : Str) : Nat :=
  ((fs.files.find? (fun f => f.1 = p)).map Prod.snd).getD 0

/-- An outbound network call performed by the publish path; `chunk` records
the bearer token under which the upload traffic is sent. -/
inductive NetCall where
  /-- `creds.refresh(Request())` inside `get_youtube_service` -/
  | tokenRefresh
  /-- one `next_chunk()` round trip of the resumable upload -/
  | chunk (token : Str)
deriving Repr, DecidableEq

/-- Outcome of `creds.refresh(Request())` (Google auth library call). -/
inductive RefreshOutcome where
  | ok (newToken : Str) (newExpiry : Option Nat)
  | err (msg : Str)
deriving Repr, DecidableEq

/-- `creds.expired` of the Google credentials built from the stored row:
true exactly when an expiry is stored and it is not in the future. -/
def credsExpired (now : Nat) (acct : SocialAccount) : Bool :=
  match acct.token_expires_at with
  | some t => t ≤ now
  | none => false

/-- Truthiness of `creds.refresh_token`: present and nonempty. -/
def hasRefreshToken (acct : SocialAccount) : Bool :=
  match acct.refresh_token with
  | some r => r ≠ []
  | none => false

namespace YouTubeAPI

/-- `YouTubeAPI.get_youtube_service` (`social/utils.py`): build credentials
from the stored row; when they are expired and a refresh token exists,
refresh them first (one network call) and write the new token and expiry
back to the row; a refresh failure is re-raised.  Returns the updated row
and the access token the built service will use, paired with the network
trace. -/
def get_youtube_service (now : Nat) (acct : SocialAccount)
    (refresh : RefreshOutcome) :
    Except Str (SocialAccount × Str) × List NetCall :=
  if credsExpired now acct && hasRefreshToken acct then
    match refresh with
    | .ok tok exp =>
      (.ok ({ acct with access_token := tok, token_expires_at := exp }, tok),
       [.tokenRefresh])
    | .err m => (.error m, [.tokenRefresh])
  else (.ok (acct, acct.access_token), [])

end YouTubeAPI

/-- The result dict returned by both upload implementations (the
`post_id` / `post_url` field names of `platform_integrations.py` are kept in
a separate structure below). -/
structure UploadResult where
  success : Bool
  video_id : Option Str := none
  video_url : Option Str := none
  error : Option Str := none
deriving Repr, DecidableEq

/-- Exception text: `str(e)` of the exceptions raised inside
`YouTubeAPI.upload_video` and caught by its outer handler. -/
def PyExc.text : PyExc → Str
  | .maxRetries stat content =>
    "Max retries exceeded: HTTP error ".toList ++ (Nat.repr stat).toList
      ++ ": ".toList ++ content
  | .http stat content =>
    "HTTP error ".toList ++ (Nat.repr stat).toList ++ ": ".toList ++ content
  | .net msg => msg

namespace YouTubeAPI

/-- The prefix of the chunk-event oracle actually consumed by the utils.py
retry loop; each consumed event is one `next_chunk()` network round trip. -/
def loop_consumed (retry : Nat) : List ChunkOutcome → List ChunkOutcome
  | [] => []
  | ev :: evs =>
    match ev with
    | .progress => ev :: loop_consumed retry evs
    | .done vid => [.done vid]
    | .httpError stat content =>
      if stat ∈ RETRIABLE_STATUS_CODES then
        if retry + 1 > MAX_RETRIES then [.httpError stat content]
        else .httpError stat content :: loop_consumed (retry + 1) evs
      else [.httpError stat content]
    | .netError m => [.netError m]

/-- `YouTubeAPI.upload_video` (`social/utils.py`): validate the local file
(existence, then the 128 GiB limit) before anything else; then obtain the
service (refreshing the token when needed); then stream the chunks.  Every
exception raised along the way is caught by the outer handler and returned
as `success := false` with the exception text.  The second component is the
network trace; the result is `none` when the chunk oracle starves the loop.
-/
def upload_video (now : Nat) (fs : FileSys) (acct : SocialAccount)
    (video_path : Str) (refresh : RefreshOutcome)
    (chunks : List ChunkOutcome) :
    Option UploadResult × List NetCall :=
  if fs.pathExists video_path = false then
    (some { success := false
            error := some ("Video file not found: ".toList ++ video_path) },
     [])
  else if MAX_FILE_SIZE < fs.getsize video_path then
    (some { success := false
            error := some ("Video file exceeds YouTube size limit (128GB)".toList) },
     [])
  else
    match get_youtube_service now acct refresh with
    | (.error m, tr) => (some { success := false, error := some m }, tr)
    | (.ok (_, tok), tr) =>
      let trace := tr ++ (loop_consumed 0 chunks).map (fun _ => NetCall.chunk tok)
      match upload_loop 0 chunks with
      | .starved => (none, trace)
      | .finished (some vid) =>
        (some { success := true
                video_id := some vid
                video_url := some ("https://www.youtube.com/watch?v=".toList ++ vid) },
         trace)
      | .finished none =>
        (some { success := false
                error := some ("Upload completed but no video ID returned".toList) },
         trace)
      | .raised exc =>
        (some { success := false, error := some exc.text }, trace)

end YouTubeAPI

namespace YouTubeUploader

/-- The service state set up by `authenticate_with_token`: whether
`self.youtube_service` is set, and with which access token. -/
structure UploaderState where
  authenticated : Bool
  token : Str := []
deriving Repr, DecidableEq

/-- The prefix of the uploader event oracle consumed by the
`youtube_uploader.py` loop; each consumed event is one `next_chunk()`
network round trip. -/
def uploader_consumed : List UploaderEvent → List UploaderEvent
  | [] => []
  | .progress :: evs => .progress :: uploader_consumed evs
  | .done r :: _ => [.done r]
  | .exc m :: evs => .exc m :: uploader_consumed evs

/-- `YouTubeUploader.upload_video` (`social/youtube_uploader.py`): fail fast
when not authenticated or when the file does not exist — there is no size
check — then stream the chunks, swallowing every chunk exception.  The
second component is the network trace; the result is `none` when the chunk
oracle starves the loop. -/
def upload_video (st : UploaderState) (fs : FileSys) (video_path : Str)
    (events : List UploaderEvent) :
    Option UploadResult × List NetCall :=
  if st.authenticated = false then
    (some { success := false, error := some ("Not authenticated".toList) }, [])
  else if fs.pathExists video_path = false then
    (some { success := false
            error := some ("Video file not found: ".toList ++ video_path) },
     [])
  else
    let trace := (uploader_consumed events).map (fun _ => NetCall.chunk st.token)
    match uploader_loop events with
    | none => (none, trace)
    | some (some vid) =>
      (some { success := true
              video_id := some vid
              video_url := some ("https://www.youtube.com/watch?v=".toList ++ vid) },
       trace)
    | some none =>
      (some { success := false
              error := some ("Upload completed but no video ID received".toList) },
       trace)

end YouTubeUploader

/-! ## OAuth state token (claims C2 and C9) -/

/-- `initiate_oauth` (`social/router.py` line 741):
the issued state is the f-string `f"{current_user.id}:youtube:{uuid.uuid4()}"`. -/
def mkState (user_id nonce : Str) : Str :=
  user_id ++ ":youtube:".toList ++ nonce

/-- A hexadecimal digit, as accepted in a canonical UUID string. -/
def isHexDigit (c : Char) : Bool :=
  c.isDigit || ('a' ≤ c && c ≤ 'f') || ('A' ≤ c && c ≤ 'F')

/-- The canonical hyphenated UUID form `xxxxxxxx-xxxx-xxxx-xxxx-xxxxxxxxxxxx`
produced by `str(uuid.uuid4())`: 36 characters, hyphens at offsets 8, 13,
18 and 23, hexadecimal digits elsewhere. -/
def validUUID (s : Str) : Bool :=
  s.length = 36 &&
  (List.range 36).all (fun i =>
    match s.get? i with
    | none => false
    | some c =>
      if i = 8 || i = 13 || i = 18 || i = 23 then c = '-' else isHexDigit c)

/-- Modelled from the spec: `uuid.UUID(user_id_str)` of the Python standard
library, restricted to the canonical hyphenated form that `initiate_oauth`
itself embeds in the state (`str(current_user.id)`); parsing succeeds
exactly on that form and raises `ValueError` otherwise. -/
def uuidParse (s : Str) : Option Str :=
  if validUUID s then some s else none

/-- The state parsing of `youtube_oauth_callback` (`social/router.py` lines
812-815): `user_id_str, platform, request_id = state.split(":")` followed by
`uuid.UUID(user_id_str)`; a split that does not yield exactly three parts,
or a head that is not a UUID, raises into the handler's `except` branch. -/
def parse_state (s : Str) : Option (Str × Str × Str) :=
  match splitColon s with
  | [a, b, c] =>
    match uuidParse a with
    | some u => some (u, b, c)
    | none => none
  | _ => none

/-! ## The OAuth callback and the credential upsert (claims C2, C7, C9) -/

/-- Replace the first element satisfying `p` (SQLAlchemy `.first()` followed
by in-place mutation and commit). -/
def updateFirst (p : α → Bool) (f : α → α) : List α → List α
  | [] => []
  | x :: xs => if p x then f x :: xs else x :: updateFirst p f xs

/-- The row filter of the existing-account query in
`youtube_oauth_callback` and `exchange_youtube_token`:
`user_id == ..., platform == "youtube", primary_id == channel_id`. -/
def matchesKey (uid channel_id : Str) (a : SocialAccount) : Bool :=
  a.user_id = uid && a.platform = "youtube".toList && a.primary_id = some channel_id

/-- The in-place update applied to an existing account row by the callback:
new tokens, new expiry (`utcnow + expires_in`), refresh timestamp, and the
rebuilt metadata map. -/
def applyTokens (now : Nat) (toks : TokenBundle) (ch : ChannelInfo)
    (a : SocialAccount) : SocialAccount :=
  { a with access_token := toks.access_token
           refresh_token := toks.refresh_token
           token_expires_at := some (now + toks.expires_in)
           last_token_refresh := some now
           platform_metadata := some
             { subscriber_count := ch.subscriber_count
               video_count := ch.video_count
               view_count := ch.view_count } }

/-- The fresh account row created by the callback when no row matches. -/
def newYoutubeAccount (now : Nat) (uid : Str) (toks : TokenBundle)
    (ch : ChannelInfo) : SocialAccount :=
  { user_id := uid
    platform := "youtube".toList
    platform_user_id := some ch.channel_id
    platform_username := ch.channel_title
    display_name := some ch.channel_title
    primary_id := some ch.channel_id
    access_token := toks.access_token
    refresh_token := toks.refresh_token
    token_expires_at := some (now + toks.expires_in)
    is_active := true
    is_verified := true
    last_token_refresh := some now
    platform_metadata := some
      { subscriber_count := ch.subscriber_count
        video_count := ch.video_count
        view_count := ch.view_count } }

/-- The credential upsert shared by `youtube_oauth_callback` (lines 857-902)
and `exchange_youtube_token` (lines 648-695): look the row up by
(user, platform "youtube", `primary_id` = channel id); update it in place
when found, append a fresh row otherwise. -/
def upsert_youtube_account (db : List SocialAccount) (now : Nat) (uid : Str)
    (toks : TokenBundle) (ch : ChannelInfo) : List SocialAccount :=
  if db.any (matchesKey uid ch.channel_id) then
    updateFirst (matchesKey uid ch.channel_id) (applyTokens now toks ch) db
  else db ++ [newYoutubeAccount now uid toks ch]

/-- The two upstream responses the callback consumes: the token exchange
(`Except` captures a non-200 response) and the channel fetch (`none` when
the response is not a 200 with a nonempty `items`). -/
structure CallbackEnv where
  tokenResp : Except Str TokenBundle
  channelResp : Option ChannelInfo
deriving Repr

/-- The observable outcome of `youtube_oauth_callback`: a redirect to the
front end carrying either an error marker or the connected channel. -/
inductive CbOutcome where
  | errorRedirect (msg : Str)
  | successRedirect (channel : Str)
deriving Repr, DecidableEq

/-- `youtube_oauth_callback` (`social/router.py` lines 787-922).  The server
state is the accounts table alone — the router keeps no record of issued
state tokens — and the handler is a pure function of that state, the query
parameters and the upstream responses. -/
def youtube_oauth_callback (db : List SocialAccount) (now : Nat)
    (env : CallbackEnv) (code state error : Option Str) :
    CbOutcome × List SocialAccount :=
  match error with
  | some e => (.errorRedirect e, db)
  | none =>
    match code, state with
    | some _, some st =>
      match parse_state st with
      | none => (.errorRedirect ("state_parse_error".toList), db)
      | some (uid, _, _) =>
        match env.tokenResp with
        | .error _ => (.errorRedirect ("token_exchange_failed".toList), db)
        | .ok toks =>
          match env.channelResp with
          | none => (.errorRedirect ("channel_fetch_failed".toList), db)
          | some ch =>
            (.successRedirect ch.channel_title,
             upsert_youtube_account db now uid toks ch)
    | _, _ => (.errorRedirect ("missing_code_or_state".toList), db)

/-! ## Manual account creation (claim C10) -/

/-- The keys of `PLATFORM_CONFIGS` in `social/router.py`. -/
def PLATFORM_KEYS : List Str :=
  ["youtube".toList, "instagram".toList, "facebook".toList,
   "linkedin".toList, "tiktok".toList, "twitter".toList]

/-- The request body of `POST /social/accounts/add`
(`SocialAccountCreate` in `social/models.py`). -/
structure AccountCreate where
  platform : Str
  platform_username : Str
  platform_email : Option Str := none
  display_name : Option Str := none
  access_token : Str
  refresh_token : Option Str := none
  token_expires_at : Option Nat := none
  primary_id : Option Str := none
  is_verified : Bool := false
deriving Repr, DecidableEq

/-- The row built by `add_social_account_manual`.  Every `getattr(...,
default)` hits an attribute that exists on the Pydantic model, so the
defaults are dead and the optional fields land as given. -/
def mkManualAccount (now : Nat) (uid : Str) (a : AccountCreate) : SocialAccount :=
  { user_id := uid
    platform := a.platform
    platform_user_id := a.primary_id
    platform_username := a.platform_username
    platform_email := a.platform_email
    display_name := a.display_name
    primary_id := a.primary_id
    access_token := a.access_token
    refresh_token := a.refresh_token
    token_expires_at := a.token_expires_at
    is_active := true
    is_verified := a.is_verified
    last_token_refresh := some now
    platform_metadata := none }

/-- The observable outcome of `POST /social/accounts/add`: an
`HTTPException(400, detail)` or the created row echoed back. -/
inductive AddOutcome where
  | http400 (detail : Str)
  | created (account : SocialAccount)
deriving Repr, DecidableEq

/-- `add_social_account_manual` (`social/router.py` lines 184-265):
reject an unsupported platform, then reject a duplicate
(user, platform, platform_username) triple, then insert; a failed insert
(`insertOk = false`) rolls the transaction back and reports a 400.
Returns the outcome and the resulting accounts table. -/
def add_social_account_manual (db : List SocialAccount) (now : Nat)
    (uid : Str) (a : AccountCreate) (insertOk : Bool) :
    AddOutcome × List SocialAccount :=
  if (PLATFORM_KEYS.contains a.platform) = false then
    (.http400 ("Unsupported platform: ".toList ++ a.platform), db)
  else if db.any (fun acc =>
      acc.user_id = uid && acc.platform = a.platform &&
      acc.platform_username = a.platform_username) then
    (.http400 ("Account already exists for ".toList ++ a.platform), db)
  else if insertOk then
    (.created (mkManualAccount now uid a), db ++ [mkManualAccount now uid a])
  else
    (.http400 ("Failed to add account".toList), db)

/-! ## The multi-platform publish loop (claim C1) -/

/-- One entry of the response list of `POST /social/post`
(`PostResponse` in `social/models.py`, the fields the claim touches). -/
structure PostResp where
  platform : Str
  stat : Str
  platform_post_id : Option Str := none
  post_url : Option Str := none
  error_message : Option Str := none
deriving Repr, DecidableEq

/-- The per-iteration context of the YouTube branch of `create_posts`:
whether the video row and the account row resolve, whether
`authenticate_with_token` succeeds, and the upload result (the inner
`try` turns upload exceptions into a failed result dict, so the file-missing
check is one of the failure modes of `uploadResult`). -/
structure PublishEnv where
  videoFound : Bool := true
  accountFound : Bool := true
  authOk : Bool := true
  uploadResult : UploadResult := { success := false }
deriving Repr, DecidableEq

/-- A response appended by the outer `except` handler of the YouTube
branch (`response_posts.append(... status="failed" ...)`). -/
def outerFail (msg : Str) : PostResp :=
  { platform := "youtube".toList
    stat := "failed".toList
    error_message := some ("YouTube error: ".toList ++ msg) }

/-- The body of the `if platform == "youtube"` arm of `create_posts`
(`social/router.py` lines 308-448): each failure mode appends exactly one
failed response, a successful upload appends exactly one posted response. -/
def youtube_branch (env : PublishEnv) : PostResp :=
  if env.videoFound = false then outerFail ("Video not found".toList)
  else if env.accountFound = false then
    outerFail ("No YouTube account connected".toList)
  else if env.authOk = false then
    outerFail ("YouTube authentication failed".toList)
  else if env.uploadResult.success then
    { platform := "youtube".toList
      stat := "posted".toList
      platform_post_id := env.uploadResult.video_id
      post_url := env.uploadResult.video_url }
  else
    { platform := "youtube".toList
      stat := "failed".toList
      error_message :=
        some ((env.uploadResult.error).getD ("YouTube upload failed".toList)) }

/-- `create_posts` (`social/router.py` lines 296-456): iterate over the
requested platforms; the `"youtube"` arm appends exactly one response per
occurrence, every other platform falls into the `else: pass` arm and
appends nothing.  `envs i` is the context of the i-th iteration. -/
def create_posts (envs : Nat → PublishEnv) : List Str → Nat → List PostResp
  | [], _ => []
  | p :: ps, i =>
    if p = "youtube".toList then
      youtube_branch (envs i) :: create_posts envs ps (i + 1)
    else create_posts envs ps (i + 1)

/-! ## The platform adapter boundary (claim C8) -/

/-- The result dict of `YouTubeIntegration.post_video`
(`social/platform_integrations.py`). -/
structure PostVideoResult where
  success : Bool
  post_id : Option Str := none
  post_url : Option Str := none
  error : Option Str := none
deriving Repr, DecidableEq

/-- The response to the resumable-session initiation request of
`YouTubeIntegration.post_video`: a status in {200, 201} with an optional
`Location` header, or any other status with its body text. -/
inductive InitResp where
  | ok (location : Option Str) (body : Str)
  | bad (stat : Nat) (body : Str)
deriving Repr, DecidableEq

/-- The upstream behaviour `YouTubeIntegration.post_video` runs against:
an aiohttp-level exception, the session-initiation response, and the
result of `_upload_video_file` (`Except` captures its raised exception on
a non-2xx upload status). -/
structure PostVideoEnv where
  netFail : Option Str := none
  initResp : InitResp := .ok none []
  fileUpload : Except Str Str := .error []
deriving Repr

namespace YouTubeIntegration

/-- `YouTubeIntegration.post_video` (`social/platform_integrations.py`
lines 132-182): the whole body sits inside `try ... except Exception`, so
any raised exception — network failure or `_upload_video_file` failure —
is returned as `success := false` with the exception text; a session
initiation that is not a 2xx with a `Location` header returns
`success := false` with the response body. -/
def post_video (env : PostVideoEnv) : PostVideoResult :=
  match env.netFail with
  | some m => { success := false, error := some m }
  | none =>
    match env.initResp with
    | .ok (some _) _ =>
      match env.fileUpload with
      | .ok vid =>
        { success := true
          post_id := some vid
          post_url := some ("https://www.youtube.com/watch?v=".toList ++ vid) }
      | .error m => { success := false, error := some m }
    | .ok none body =>
      { success := false
        error := some ("YouTube upload failed: ".toList ++ body) }
    | .bad _ body =>
      { success := false
        error := some ("YouTube upload failed: ".toList ++ body) }

end YouTubeIntegration

/-! ## Auxiliary measures and concrete sample data -/

/-- The number of retriable-status chunk failures among a list of events. -/
def retriableCount : List ChunkOutcome → Nat
  | [] => 0
  | .httpError s _ :: evs =>
    (if s ∈ RETRIABLE_STATUS_CODES then 1 else 0) + retriableCount evs
  | .progress :: evs => retriableCount evs
  | .done _ :: evs => retriableCount evs
  | .netError _ :: evs => retriableCount evs

/-- A canonical user-id UUID used by witnesses. -/
def uuidA : Str := "123e4567-e89b-12d3-a456-426614174000".toList

/-- A canonical nonce UUID used by witnesses. -/
def uuidB : Str := "00000000-0000-4000-8000-000000000000".toList

/-- A sample channel used by witnesses. -/
def chanA : ChannelInfo :=
  { channel_id := "UC123".toList, channel_title := "Chan".toList }

/-- A sample token bundle used by witnesses. -/
def toksA : TokenBundle := { access_token := "tokA".toList }

/-- A second sample token bundle used by witnesses. -/
def toksB : TokenBundle := { access_token := "tokB".toList }

/-- A callback environment whose two upstream calls both succeed. -/
def envOkA : CallbackEnv :=
  { tokenResp := .ok toksA, channelResp := some chanA }

/-- A file system holding one small video file. -/
def fsA : FileSys := { files := [("v.mp4".toList, 100)] }

/-- A file system holding one video file just over the 128 GiB limit. -/
def bigFs : FileSys := { files := [("big.mp4".toList, MAX_FILE_SIZE + 1)] }

/-- A sample stored account (no expiry recorded). -/
def acctA : SocialAccount :=
  { user_id := uuidA, platform := "youtube".toList
    access_token := "tokA".toList }

/-- A sample stored account whose token expired at time 5 and which holds a
refresh token. -/
def acctExpired : SocialAccount :=
  { user_id := uuidA, platform := "youtube".toList
    access_token := "stale".toList
    refresh_token := some ("refresh".toList)
    token_expires_at := some 5 }

/-- An authenticated uploader state. -/
def stAuth : YouTubeUploader.UploaderState :=
  { authenticated := true, token := "tokA".toList }

/-- A sample manual-add request body. -/
def addReqA : AccountCreate :=
  { platform := "youtube".toList
    platform_username := "chan".toList
    access_token := "tokA".toList }

/-! # Theorems

Helper lemmas first, then one theorem (plus witness or counterexample)
per claim C1-C10. -/

/-- Every arm of the YouTube branch produces a response whose `platform`
field is `"youtube"`. -/
theorem youtube_branch_platform (env : PublishEnv) :
    (youtube_branch env).platform = "youtube".toList := by
  unfold youtube_branch outerFail
  repeat' split
  all_goals rfl

/-- Structure of the `create_posts` response list: one entry per requested
`"youtube"` platform, nothing for any other platform. -/
theorem create_posts_spec (envs : Nat → PublishEnv) (platforms : List Str)
    (i : Nat) :
    (create_posts envs platforms i).length
      = (platforms.filter (fun p => p = "youtube".toList)).length
    ∧ ∀ r ∈ create_posts envs platforms i, r.platform = "youtube".toList := by
  induction platforms generalizing i with
  | nil => simp [create_posts]
  | cons p ps ih =>
    rcases ih (i + 1) with ⟨ihlen, ihmem⟩
    by_cases h : p = "youtube".toList
    · have e1 : create_posts envs (p :: ps) i
          = youtube_branch (envs i) :: create_posts envs ps (i + 1) := by
        simp only [create_posts]
        rw [if_pos h]
      have e2 : (p :: ps).filter (fun q => q = "youtube".toList)
          = p :: ps.filter (fun q => q = "youtube".toList) := by
        rw [List.filter_cons, if_pos (by simpa using h)]
      refine ⟨?_, ?_⟩
      · rw [e1, e2, List.length_cons, List.length_cons, ihlen]
      · intro r hr
        rw [e1] at hr
        rcases List.mem_cons.mp hr with h1 | h1
        · subst h1; exact youtube_branch_platform _
        · exact ihmem r h1
    · have e1 : create_posts envs (p :: ps) i = create_posts envs ps (i + 1) := by
        simp only [create_posts]
        rw [if_neg h]
      have e2 : (p :: ps).filter (fun q => q = "youtube".toList)
          = ps.filter (fun q => q = "youtube".toList) := by
        rw [List.filter_cons, if_neg (by simpa using h)]
      refine ⟨?_, ?_⟩
      · rw [e1, e2, ihlen]
      · intro r hr
        rw [e1] at hr
        exact ihmem r hr

/-- Claim C1 is false on the code: a publish request for the single
platform `"linkedin"` produces an empty result list (length 0, not 1) —
the unsupported platform is silently dropped instead of yielding an
explicit failed result. -/
theorem c1_counterexample :
    create_posts (fun _ => {}) ["linkedin".toList] 0 = []
    ∧ ["linkedin".toList].length = 1 := by
  constructor
  · rfl
  · rfl

/-- Claim C1, amended: the result list of `create_posts` has exactly one
entry per `"youtube"` occurrence in the request (each with `platform`
`"youtube"`); every non-`"youtube"` platform — supported or not — is
silently dropped, producing no entry at all. -/
theorem c1_amended (envs : Nat → PublishEnv) (platforms : List Str) :
    (create_posts envs platforms 0).length
      = (platforms.filter (fun p => p = "youtube".toList)).length
    ∧ ∀ r ∈ create_posts envs platforms 0, r.platform = "youtube".toList :=
  create_posts_spec envs platforms 0

/-- Witness for `c1_amended` on a concrete two-platform request. -/
theorem c1_amended_witness :
    (create_posts (fun _ => {}) ["youtube".toList, "linkedin".toList] 0).length
      = (["youtube".toList, "linkedin".toList].filter
          (fun p => p = "youtube".toList)).length :=
  (c1_amended (fun _ => {}) ["youtube".toList, "linkedin".toList]).1

/-- Stripping only drops characters: membership is preserved downward. -/
theorem mem_of_mem_pyStrip {c : Char} {s : Str} (h : c ∈ pyStrip s) : c ∈ s := by
  unfold pyStrip at h
  rw [List.mem_reverse] at h
  have h1 : c ∈ (s.dropWhile Char.isWhitespace).reverse :=
    (List.dropWhile_sublist _).subset h
  rw [List.mem_reverse] at h1
  exact (List.dropWhile_sublist _).subset h1

/-- `removeHash` removes every `#`. -/
theorem not_hash_mem_removeHash {c : Char} {s : Str} (h : c ∈ removeHash s) :
    c ≠ '#' := by
  have h2 := (List.mem_filter.mp h).2
  simpa using h2

/-- Every tag emitted by the uploader's `clean_tags` is `#`-free. -/
theorem clean_tags_no_hash {t : Str} {tags : List Str}
    (h : t ∈ YouTubeUploader.clean_tags tags) : '#' ∉ t := by
  intro hc
  unfold YouTubeUploader.clean_tags at h
  have h1 := (List.take_sublist _ _).subset h
  rcases List.mem_map.mp h1 with ⟨u, _, rfl⟩
  exact not_hash_mem_removeHash (mem_of_mem_pyStrip hc) rfl

/-- Claim C3 is false on the code: `YouTubeIntegration.post_video`
(`social/platform_integrations.py`) slices the tag list at 500, not 50 — a
publish request with 51 tags sends all 51 of them in the metadata body. -/
theorem c3_counterexample :
    50 < ((YouTubeIntegration.post_snippet ("t".toList) ("d".toList)
      (List.replicate 51 ("t".toList)) ("22".toList)).tags).length := by
  decide

/-- Claim C3, amended: the `YouTubeUploader.upload_video` body (the path
`POST /social/post` uses) truncates the title to 100 and the description to
5000 characters and sends at most 50 tags, each with every `#` removed (not
only a leading one) and whitespace-trimmed; the `YouTubeAPI.upload_video`
body truncates to 100/5000/50 but leaves `#` in place; the
`YouTubeIntegration.post_video` body truncates the title and description the
same way but caps the tags at 500 entries, `#`-free. -/
theorem c3_amended :
    (∀ title description tags cat,
      ((YouTubeUploader.request_snippet title description tags cat).title).length ≤ 100
      ∧ ((YouTubeUploader.request_snippet title description tags cat).description).length ≤ 5000
      ∧ ((YouTubeUploader.request_snippet title description tags cat).tags).length ≤ 50
      ∧ ∀ t ∈ (YouTubeUploader.request_snippet title description tags cat).tags, '#' ∉ t)
    ∧ (∀ title description tags cat,
      ((YouTubeAPI.body_snippet title description tags cat).title).length ≤ 100
      ∧ ((YouTubeAPI.body_snippet title description tags cat).description).length ≤ 5000
      ∧ ((YouTubeAPI.body_snippet title description tags cat).tags).length ≤ 50)
    ∧ (∀ title description tags cat,
      ((YouTubeIntegration.post_snippet title description tags cat).title).length ≤ 100
      ∧ ((YouTubeIntegration.post_snippet title description tags cat).description).length ≤ 5000
      ∧ ((YouTubeIntegration.post_snippet title description tags cat).tags).length ≤ 500
      ∧ ∀ t ∈ (YouTubeIntegration.post_snippet title description tags cat).tags, '#' ∉ t) := by
  refine ⟨?_, ?_, ?_⟩ <;> intro title description tags cat
  · refine ⟨List.length_take_le _ _, ?_, List.length_take_le _ _, ?_⟩
    · unfold YouTubeUploader.request_snippet
      by_cases h : description = []
      · simp [h]
      · rw [if_neg h]
        exact List.length_take_le 5000 description
    · intro t ht
      exact clean_tags_no_hash ht
  · exact ⟨List.length_take_le _ _, List.length_take_le _ _, List.length_take_le _ _⟩
  · refine ⟨List.length_take_le _ _, ?_, ?_, ?_⟩
    · unfold YouTubeIntegration.post_snippet
      by_cases h : description = []
      · simp [h]
      · rw [if_neg h]
        exact List.length_take_le 5000 description
    · unfold YouTubeIntegration.post_snippet
      rw [List.length_map]
      exact List.length_take_le 500 tags
    · intro t ht
      intro hc
      unfold YouTubeIntegration.post_snippet at ht
      rcases List.mem_map.mp ht with ⟨u, _, rfl⟩
      exact not_hash_mem_removeHash hc rfl

/-- Witness for `c3_amended`: the tag `"#ai"` comes out of the uploader
body as the hash-free `"ai"`. -/
theorem c3_amended_witness : '#' ∉ ("ai".toList) :=
  (c3_amended.1 ("t".toList) ("d".toList) [("#ai".toList)] ("22".toList)).2.2.2
    ("ai".toList) (by decide)

/-- A run of the utils.py retry loop that reaches the final response has
consumed at most `MAX_RETRIES - retry` retriable failures: the retry
counter is cumulative across the whole upload. -/
theorem upload_loop_retry_bound (evs : List ChunkOutcome) :
    ∀ retry vid, retry ≤ MAX_RETRIES →
      upload_loop retry evs = .finished vid →
      retry + retriableCount (YouTubeAPI.loop_consumed retry evs) ≤ MAX_RETRIES := by
  induction evs with
  | nil =>
    intro retry vid _ h
    simp [upload_loop] at h
  | cons ev evs ih =>
    intro retry vid hr h
    cases ev with
    | progress =>
      simp only [upload_loop] at h
      simpa [YouTubeAPI.loop_consumed, retriableCount] using ih retry vid hr h
    | done v =>
      simp [YouTubeAPI.loop_consumed, retriableCount]
      omega
    | httpError s c =>
      simp only [upload_loop] at h
      by_cases hs : s ∈ RETRIABLE_STATUS_CODES
      · rw [if_pos hs] at h
        by_cases hm : retry + 1 > MAX_RETRIES
        · rw [if_pos hm] at h
          exact absurd h (by simp)
        · rw [if_neg hm] at h
          have := ih (retry + 1) vid (by omega) h
          simp only [YouTubeAPI.loop_consumed, if_pos hs, if_neg hm,
            retriableCount] at *
          omega
      · rw [if_neg hs] at h
        exact absurd h (by simp)
    | netError m =>
      simp only [upload_loop] at h
      exact absurd h (by simp)

/-- Claim C4 is false on the code: in `YouTubeAPI.upload_video` a
network/timeout chunk error is not retried — it is re-raised at once and
surfaces as a failed result, even when the very next poll of the same chunk
would have succeeded. -/
theorem c4_counterexample :
    (YouTubeAPI.upload_video 0 fsA acctA ("v.mp4".toList) (.ok [] none)
        [.netError ("timeout".toList), .done (some ("v".toList))]).1
      = some { success := false, error := some ("timeout".toList) } := by
  rfl

/-- Claim C4, amended: in `YouTubeAPI.upload_video` (`social/utils.py`) a
chunk failure with HTTP status in {500, 502, 503, 504} is retried under a
cumulative whole-upload budget of `MAX_RETRIES = 3`; on the budget's
exhaustion the loop raises `Max retries exceeded` carrying the last
upstream error, any other HTTP status fails immediately with no retry, and
a network/timeout error also fails immediately with no retry (contrary to
the claim); any run reaching the final response has consumed at most 3
retriable failures.  The `YouTubeUploader.upload_video` loop
(`social/youtube_uploader.py`) instead retries every chunk exception with
no bound at all. -/
theorem c4_amended :
    (∀ retry m evs, upload_loop retry (.netError m :: evs) = .raised (.net m))
    ∧ (∀ retry s c evs, s ∉ RETRIABLE_STATUS_CODES →
        upload_loop retry (.httpError s c :: evs) = .raised (.http s c))
    ∧ (∀ retry s c evs, s ∈ RETRIABLE_STATUS_CODES → retry + 1 ≤ MAX_RETRIES →
        upload_loop retry (.httpError s c :: evs) = upload_loop (retry + 1) evs)
    ∧ (∀ s c evs, s ∈ RETRIABLE_STATUS_CODES →
        upload_loop MAX_RETRIES (.httpError s c :: evs)
          = .raised (.maxRetries s c))
    ∧ (∀ evs vid, upload_loop 0 evs = .finished vid →
        retriableCount (YouTubeAPI.loop_consumed 0 evs) ≤ MAX_RETRIES)
    ∧ (∀ n vid, uploader_loop
        (List.replicate n (.exc ("e".toList)) ++ [.done vid]) = some vid) := by
  refine ⟨?_, ?_, ?_, ?_, ?_, ?_⟩
  · intro retry m evs
    simp [upload_loop]
  · intro retry s c evs hs
    simp [upload_loop, hs]
  · intro retry s c evs hs hm
    simp only [upload_loop]
    rw [if_pos hs, if_neg (by omega)]
  · intro s c evs hs
    simp only [upload_loop]
    rw [if_pos hs, if_pos (by omega)]
  · intro evs vid h
    have := upload_loop_retry_bound evs 0 vid (by omega) h
    omega
  · intro n vid
    induction n with
    | zero => rfl
    | succ k ihk => simpa [List.replicate_succ, uploader_loop] using ihk

/-- Witness for `c4_amended`: a 403 chunk failure is fatal at once. -/
theorem c4_amended_witness :
    upload_loop 0 [.httpError 403 ("forbidden".toList)]
      = .raised (.http 403 ("forbidden".toList)) :=
  c4_amended.2.1 0 403 ("forbidden".toList) [] (by decide)

/-- Claim C5 is false on the code: `YouTubeUploader.upload_video`
(`social/youtube_uploader.py`, the implementation `POST /social/post`
invokes) performs no size check at all — a file one byte over the 128 GiB
limit is streamed to the network and the upload reports success. -/
theorem c5_counterexample :
    (YouTubeUploader.upload_video stAuth bigFs ("big.mp4".toList)
        [.done (some ("v".toList))]).1
      = some { success := true, video_id := some ("v".toList),
               video_url := some ("https://www.youtube.com/watch?v=v".toList) }
    ∧ (YouTubeUploader.upload_video stAuth bigFs ("big.mp4".toList)
        [.done (some ("v".toList))]).2 = [.chunk ("tokA".toList)] := by
  constructor
  · rfl
  · rfl

/-- Claim C5, amended: `YouTubeAPI.upload_video` (`social/utils.py`) fails
fast with `success := false` and an empty network trace when the file is
missing or exceeds 128 GiB; `YouTubeUploader.upload_video`
(`social/youtube_uploader.py`) fails fast only when the file is missing —
it has no size validation. -/
theorem c5_amended :
    (∀ now fs acct p refresh chunks, fs.pathExists p = false →
       YouTubeAPI.upload_video now fs acct p refresh chunks
         = (some { success := false
                   error := some ("Video file not found: ".toList ++ p) }, []))
    ∧ (∀ now fs acct p refresh chunks, fs.pathExists p = true →
        MAX_FILE_SIZE < fs.getsize p →
        YouTubeAPI.upload_video now fs acct p refresh chunks
          = (some { success := false
                    error := some
                      ("Video file exceeds YouTube size limit (128GB)".toList) },
             []))
    ∧ (∀ st fs p events, st.authenticated = true → fs.pathExists p = false →
        YouTubeUploader.upload_video st fs p events
          = (some { success := false
                    error := some ("Video file not found: ".toList ++ p) }, [])) := by
  refine ⟨?_, ?_, ?_⟩
  · intro now fs acct p refresh chunks h
    simp [YouTubeAPI.upload_video, h]
  · intro now fs acct p refresh chunks h1 h2
    simp [YouTubeAPI.upload_video, h1, h2]
  · intro st fs p events h1 h2
    simp [YouTubeUploader.upload_video, h1, h2]

/-- Witness for `c5_amended`: a missing path fails fast with no network
call on the utils.py path. -/
theorem c5_amended_witness :
    YouTubeAPI.upload_video 0 fsA acctA ("missing.mp4".toList) (.ok [] none) []
      = (some { success := false
                error := some ("Video file not found: missing.mp4".toList) }, []) :=
  c5_amended.1 0 fsA acctA ("missing.mp4".toList) (.ok [] none) [] (by decide)

/-- Claim C6: on the utils.py publish path, when the stored token is
expired and a refresh token exists, the refresh is the first network call —
before any upload chunk; a failed refresh aborts the publish as a failed
result with no upload call at all, and a successful refresh makes every
upload chunk travel under the new token, never the stale one. -/
theorem c6_refresh_before_upload
    (now : Nat) (fs : FileSys) (acct : SocialAccount) (p : Str)
    (refresh : RefreshOutcome) (chunks : List ChunkOutcome)
    (hfile : fs.pathExists p = true) (hsize : fs.getsize p ≤ MAX_FILE_SIZE)
    (hexp : credsExpired now acct = true) (href : hasRefreshToken acct = true) :
    (∀ m, refresh = .err m →
      (YouTubeAPI.upload_video now fs acct p refresh chunks).1
          = some { success := false, error := some m }
      ∧ (YouTubeAPI.upload_video now fs acct p refresh chunks).2 = [.tokenRefresh])
    ∧ (∀ tok exp, refresh = .ok tok exp →
        (YouTubeAPI.upload_video now fs acct p refresh chunks).2
          = .tokenRefresh
            :: (YouTubeAPI.loop_consumed 0 chunks).map (fun _ => NetCall.chunk tok)) := by
  have hgate : (credsExpired now acct && hasRefreshToken acct) = true := by
    simp [hexp, href]
  constructor
  · rintro m rfl
    constructor <;>
      simp [YouTubeAPI.upload_video, hfile, Nat.not_lt.mpr hsize,
        YouTubeAPI.get_youtube_service, hgate]
  · rintro tok exp rfl
    cases hres : upload_loop 0 chunks with
    | finished vid =>
      cases vid <;>
        simp [YouTubeAPI.upload_video, hfile, Nat.not_lt.mpr hsize,
          YouTubeAPI.get_youtube_service, hgate, hres]
    | raised exc =>
      simp [YouTubeAPI.upload_video, hfile, Nat.not_lt.mpr hsize,
        YouTubeAPI.get_youtube_service, hgate, hres]
    | starved =>
      simp [YouTubeAPI.upload_video, hfile, Nat.not_lt.mpr hsize,
        YouTubeAPI.get_youtube_service, hgate, hres]

/-- Witness for `c6_refresh_before_upload`: a refresh denial on an expired
account aborts the publish after the refresh call alone. -/
theorem c6_witness :
    (YouTubeAPI.upload_video 10 fsA acctExpired ("v.mp4".toList)
        (.err ("denied".toList)) []).1
      = some { success := false, error := some ("denied".toList) }
    ∧ (YouTubeAPI.upload_video 10 fsA acctExpired ("v.mp4".toList)
        (.err ("denied".toList)) []).2 = [.tokenRefresh] :=
  (c6_refresh_before_upload 10 fsA acctExpired ("v.mp4".toList)
    (.err ("denied".toList)) [] (by decide) (by decide) (by decide)
    (by decide)).1 ("denied".toList) rfl

/-- Claim C8: the adapter operations return a result record that always
carries a success flag — `success := true` with a post id and url, or
`success := false` with an error — for every combination of upstream
failures; no exception crosses the adapter boundary (both embeddings are
total functions into the result record, with every raise captured). -/
theorem c8_adapter_result_shape :
    (∀ env, ((YouTubeIntegration.post_video env).success = true
              ∧ (YouTubeIntegration.post_video env).post_id.isSome = true
              ∧ (YouTubeIntegration.post_video env).post_url.isSome = true)
            ∨ ((YouTubeIntegration.post_video env).success = false
              ∧ (YouTubeIntegration.post_video env).error.isSome = true))
    ∧ (∀ now fs acct p refresh chunks r,
        (YouTubeAPI.upload_video now fs acct p refresh chunks).1 = some r →
        (r.success = true ∧ r.video_id.isSome = true ∧ r.video_url.isSome = true)
        ∨ (r.success = false ∧ r.error.isSome = true)) := by
  constructor
  · intro env
    rcases env with ⟨nf, ir, fu⟩
    cases nf with
    | some m => right; simp [YouTubeIntegration.post_video]
    | none =>
      cases ir with
      | ok loc body =>
        cases loc with
        | some l =>
          cases fu with
          | ok vid => left; simp [YouTubeIntegration.post_video]
          | error m => right; simp [YouTubeIntegration.post_video]
        | none => right; simp [YouTubeIntegration.post_video]
      | bad s body => right; simp [YouTubeIntegration.post_video]
  · intro now fs acct p refresh chunks r h
    unfold YouTubeAPI.upload_video at h
    by_cases h1 : fs.pathExists p = false
    · rw [if_pos h1] at h
      simp only [Option.some.injEq] at h
      subst h
      right; simp
    · rw [if_neg h1] at h
      by_cases h2 : MAX_FILE_SIZE < fs.getsize p
      · rw [if_pos h2] at h
        simp only [Option.some.injEq] at h
        subst h
        right; simp
      · rw [if_neg h2] at h
        rcases hg : YouTubeAPI.get_youtube_service now acct refresh with ⟨res, tr⟩
        rw [hg] at h
        cases res with
        | error m =>
          simp only [Option.some.injEq] at h
          subst h
          right; simp
        | ok srv =>
          rcases srv with ⟨a, tok⟩
          cases hres : upload_loop 0 chunks with
          | finished vid =>
            cases vid with
            | some v =>
              rw [hres] at h
              simp only [Option.some.injEq] at h
              subst h
              left; simp
            | none =>
              rw [hres] at h
              simp only [Option.some.injEq] at h
              subst h
              right; simp
          | raised exc =>
            rw [hres] at h
            simp only [Option.some.injEq] at h
            subst h
            right; simp
          | starved =>
            rw [hres] at h
            simp at h

/-- Witness for `c8_adapter_result_shape`: the network-failure leg of the
integration adapter returns a flagged failure. -/
theorem c8_witness :
    ((YouTubeIntegration.post_video
        { netFail := some ("conn reset".toList) }).success = true
      ∧ (YouTubeIntegration.post_video
          { netFail := some ("conn reset".toList) }).post_id.isSome = true
      ∧ (YouTubeIntegration.post_video
          { netFail := some ("conn reset".toList) }).post_url.isSome = true)
    ∨ ((YouTubeIntegration.post_video
        { netFail := some ("conn reset".toList) }).success = false
      ∧ (YouTubeIntegration.post_video
          { netFail := some ("conn reset".toList) }).error.isSome = true) :=
  c8_adapter_result_shape.1 { netFail := some ("conn reset".toList) }

/-- Claim C10: `POST /social/accounts/add` rejects an unsupported platform
before touching the store, rejects a duplicate (user, platform, username)
triple with an "Account already exists" error leaving the store unchanged,
rolls back a failed insert leaving the store unchanged, and on success
appends exactly the one new row. -/
theorem c10_manual_add :
    (∀ db now uid a ok, PLATFORM_KEYS.contains a.platform = false →
       add_social_account_manual db now uid a ok
         = (.http400 ("Unsupported platform: ".toList ++ a.platform), db))
    ∧ (∀ db now uid a ok,
        PLATFORM_KEYS.contains a.platform = true →
        db.any (fun acc => acc.user_id = uid && acc.platform = a.platform &&
          acc.platform_username = a.platform_username) = true →
        add_social_account_manual db now uid a ok
          = (.http400 ("Account already exists for ".toList ++ a.platform), db))
    ∧ (∀ db now uid a,
        PLATFORM_KEYS.contains a.platform = true →
        db.any (fun acc => acc.user_id = uid && acc.platform = a.platform &&
          acc.platform_username = a.platform_username) = false →
        add_social_account_manual db now uid a false
          = (.http400 ("Failed to add account".toList), db))
    ∧ (∀ db now uid a,
        PLATFORM_KEYS.contains a.platform = true →
        db.any (fun acc => acc.user_id = uid && acc.platform = a.platform &&
          acc.platform_username = a.platform_username) = false →
        add_social_account_manual db now uid a true
          = (.created (mkManualAccount now uid a),
             db ++ [mkManualAccount now uid a])) := by
  refine ⟨?_, ?_, ?_, ?_⟩
  · intro db now uid a ok h
    simp only [add_social_account_manual, h]
    rfl
  · intro db now uid a ok h1 h2
    simp only [add_social_account_manual, h1, h2]
    rfl
  · intro db now uid a h1 h2
    simp only [add_social_account_manual, h1, h2]
    rfl
  · intro db now uid a h1 h2
    simp only [add_social_account_manual, h1, h2]
    rfl

/-- Witness for `c10_manual_add`: re-adding the same (user, platform,
username) triple is rejected and the store keeps its single row. -/
theorem c10_witness :
    add_social_account_manual [mkManualAccount 0 uuidA addReqA] 1 uuidA addReqA true
      = (.http400 ("Account already exists for youtube".toList),
         [mkManualAccount 0 uuidA addReqA]) :=
  c10_manual_add.2.1 [mkManualAccount 0 uuidA addReqA] 1 uuidA addReqA true
    (by decide) (by decide)

/-- Splitting a colon-free string yields the single part. -/
theorem splitColon_no_colon {a : Str} (h : ':' ∉ a) : splitColon a = [a] := by
  induction a with
  | nil => rfl
  | cons c cs ih =>
    have h1 : c ≠ ':' := by
      rintro rfl
      exact h (List.mem_cons_self _ _)
    have h2 : ':' ∉ cs := fun m => h (List.mem_cons_of_mem _ m)
    simp only [splitColon]
    rw [if_neg h1, ih h2]

/-- Splitting peels a colon-free head part off at the first separator. -/
theorem splitColon_append {a : Str} (r : Str) (h : ':' ∉ a) :
    splitColon (a ++ ':' :: r) = a :: splitColon r := by
  induction a with
  | nil => simp [splitColon]
  | cons c cs ih =>
    have h1 : c ≠ ':' := by
      rintro rfl
      exact h (List.mem_cons_self _ _)
    have h2 : ':' ∉ cs := fun m => h (List.mem_cons_of_mem _ m)
    show splitColon (c :: (cs ++ ':' :: r)) = (c :: cs) :: splitColon r
    simp only [splitColon]
    rw [if_neg h1, ih h2]

/-- A canonical UUID string contains no colon: every character is a hyphen
or a hexadecimal digit. -/
theorem validUUID_no_colon {s : Str} (h : validUUID s = true) : ':' ∉ s := by
  intro hm
  unfold validUUID at h
  rw [Bool.and_eq_true] at h
  rcases h with ⟨hlen, hall⟩
  rcases List.mem_iff_get?.mp hm with ⟨i, hi⟩
  have hilt : i < s.length := by
    by_contra hge
    rw [List.get?_eq_none.mpr (Nat.le_of_not_lt hge)] at hi
    cases hi
  have hi36 : i < 36 := by
    have := of_decide_eq_true hlen
    omega
  have hprop := List.all_eq_true.mp hall i (List.mem_range.mpr hi36)
  rw [hi] at hprop
  simp [isHexDigit] at hprop

/-- A state whose split is not a triple raises out of the unpacking. -/
theorem parse_state_none_of_parts {st : Str}
    (h : (splitColon st).length ≠ 3) : parse_state st = none := by
  unfold parse_state
  rcases hs : splitColon st with _ | ⟨a, _ | ⟨b, _ | ⟨c, _ | ⟨d, l4⟩⟩⟩⟩
  · rfl
  · rfl
  · rfl
  · exact absurd (by rw [hs]; rfl) h
  · rfl

/-- Claim C9: the state issued by `initiate_oauth` round-trips through the
callback's parser — splitting on `:` recovers exactly the issuing user's id
(a valid UUID), the platform `"youtube"` and the nonce — and any state that
does not split into exactly three parts sends the callback down the error
redirect, leaving the account store untouched. -/
theorem c9_state_roundtrip :
    (∀ uid nonce, validUUID uid = true → validUUID nonce = true →
      parse_state (mkState uid nonce) = some (uid, "youtube".toList, nonce))
    ∧ (∀ db now env code st, (splitColon st).length ≠ 3 →
        youtube_oauth_callback db now env (some code) (some st) none
          = (.errorRedirect ("state_parse_error".toList), db)) := by
  constructor
  · intro uid nonce h1 h2
    have e1 : mkState uid nonce
        = uid ++ ':' :: ("youtube".toList ++ ':' :: nonce) := by
      unfold mkState
      rw [List.append_assoc]
      rfl
    unfold parse_state
    rw [e1, splitColon_append _ (validUUID_no_colon h1),
      splitColon_append _ (by decide), splitColon_no_colon (validUUID_no_colon h2)]
    simp [uuidParse, h1]
  · intro db now env code st h
    simp only [youtube_oauth_callback]
    rw [parse_state_none_of_parts h]

/-- Witness for `c9_state_roundtrip`: a concrete issued state parses back
to its components. -/
theorem c9_witness :
    parse_state (mkState uuidA uuidB)
      = some (uuidA, "youtube".toList, uuidB) :=
  c9_state_roundtrip.1 uuidA uuidB (by decide) (by decide)

/-- A callback whose state parses and whose two upstream calls succeed
links the account, whatever the current table contents. -/
theorem youtube_oauth_callback_success (db : List SocialAccount) (now : Nat)
    (env : CallbackEnv) (code st uid p n : Str) (toks : TokenBundle)
    (ch : ChannelInfo) (hparse : parse_state st = some (uid, p, n))
    (htok : env.tokenResp = .ok toks) (hch : env.channelResp = some ch) :
    youtube_oauth_callback db now env (some code) (some st) none
      = (.successRedirect ch.channel_title,
         upsert_youtube_account db now uid toks ch) := by
  simp only [youtube_oauth_callback]
  rw [hparse, htok, hch]

/-- Claim C2 is false on the code: the router records no issued state
tokens, so presenting the very same state value a second time succeeds
again — it is not rejected as INVALID_STATE. -/
theorem c2_counterexample :
    (youtube_oauth_callback [] 0 envOkA (some ("c".toList))
        (some (mkState uuidA uuidB)) none).1
      = .successRedirect ("Chan".toList)
    ∧ (youtube_oauth_callback
        (youtube_oauth_callback [] 0 envOkA (some ("c".toList))
          (some (mkState uuidA uuidB)) none).2
        0 envOkA (some ("c".toList)) (some (mkState uuidA uuidB)) none).1
      = .successRedirect ("Chan".toList) := by
  constructor
  · rfl
  · rfl

/-- Claim C2, amended: no single-use check exists.  The callback is a pure
function of the accounts table and the request, so any state that parses
into a (uuid, platform, nonce) triple is accepted on its first use and
accepted again on every replay, as long as the upstream calls succeed. -/
theorem c2_amended (db : List SocialAccount) (now now' : Nat)
    (env : CallbackEnv) (code st uid p n : Str) (toks : TokenBundle)
    (ch : ChannelInfo) (hparse : parse_state st = some (uid, p, n))
    (htok : env.tokenResp = .ok toks) (hch : env.channelResp = some ch) :
    (youtube_oauth_callback db now env (some code) (some st) none).1
      = .successRedirect ch.channel_title
    ∧ (youtube_oauth_callback
        ((youtube_oauth_callback db now env (some code) (some st) none).2)
        now' env (some code) (some st) none).1
      = .successRedirect ch.channel_title := by
  have h1 := youtube_oauth_callback_success db now env code st uid p n toks ch
    hparse htok hch
  have h2 := youtube_oauth_callback_success
    (upsert_youtube_account db now uid toks ch) now' env code st uid p n toks ch
    hparse htok hch
  constructor
  · rw [h1]
  · rw [h1]
    show (youtube_oauth_callback (upsert_youtube_account db now uid toks ch)
      now' env (some code) (some st) none).1 = _
    rw [h2]

/-- Witness for `c2_amended`: a concrete replayed state is accepted twice. -/
theorem c2_amended_witness :
    (youtube_oauth_callback [] 0 envOkA (some ("code".toList))
        (some (mkState uuidA uuidB)) none).1
      = .successRedirect chanA.channel_title
    ∧ (youtube_oauth_callback
        ((youtube_oauth_callback [] 0 envOkA (some ("code".toList))
          (some (mkState uuidA uuidB)) none).2)
        1 envOkA (some ("code".toList)) (some (mkState uuidA uuidB)) none).1
      = .successRedirect chanA.channel_title :=
  c2_amended [] 0 1 envOkA ("code".toList) (mkState uuidA uuidB) uuidA
    ("youtube".toList) uuidB toksA chanA (by decide) rfl rfl

/-- Updating a row in place never changes the table's length. -/
theorem length_updateFirst (p : α → Bool) (f : α → α) (l : List α) :
    (updateFirst p f l).length = l.length := by
  induction l with
  | nil => rfl
  | cons x xs ih =>
    simp only [updateFirst]
    split
    · simp
    · simp [ih]

/-- An in-place update whose transformation preserves a predicate
preserves that predicate's count. -/
theorem countP_updateFirst (p q : α → Bool) (f : α → α)
    (hf : ∀ a, q (f a) = q a) (l : List α) :
    (updateFirst p f l).countP q = l.countP q := by
  induction l with
  | nil => rfl
  | cons x xs ih =>
    simp only [updateFirst]
    split
    · simp [List.countP_cons, hf]
    · simp [List.countP_cons, ih]

/-- The token/metadata update leaves the row's key columns untouched. -/
theorem matchesKey_applyTokens (uid cid : Str) (now : Nat)
    (toks : TokenBundle) (ch : ChannelInfo) (a : SocialAccount) :
    matchesKey uid cid (applyTokens now toks ch a) = matchesKey uid cid a := rfl

/-- A freshly inserted row matches its own key. -/
theorem matchesKey_newYoutubeAccount (now : Nat) (uid : Str)
    (toks : TokenBundle) (ch : ChannelInfo) :
    matchesKey uid ch.channel_id (newYoutubeAccount now uid toks ch) = true := by
  simp [matchesKey, newYoutubeAccount]

/-- A fresh row matches a key only when it is its own key. -/
theorem matchesKey_newYoutubeAccount_inv (uid' cid' uid : Str) (now : Nat)
    (toks : TokenBundle) (ch : ChannelInfo)
    (h : matchesKey uid' cid' (newYoutubeAccount now uid toks ch) = true) :
    uid' = uid ∧ cid' = ch.channel_id := by
  simp [matchesKey, newYoutubeAccount] at h
  exact ⟨h.1.symm, h.2.symm⟩

/-- When no existing row matches, an in-place update on the table with one
matching row appended updates exactly that appended row. -/
theorem updateFirst_append_of_none (p : α → Bool) (f : α → α) (l : List α)
    (x : α) (h : ∀ a ∈ l, p a = false) :
    updateFirst p f (l ++ [x]) = l ++ [if p x then f x else x] := by
  induction l with
  | nil =>
    simp only [List.nil_append, updateFirst]
    split
    · rfl
    · rfl
  | cons y ys ih =>
    have hy : p y = false := h y (List.mem_cons_self _ _)
    simp only [List.cons_append, updateFirst]
    rw [if_neg (by simp [hy])]
    exact congrArg (fun t => y :: t)
      (ih (fun a ha => h a (List.mem_cons_of_mem _ ha)))

/-- Filtering a table of non-matching rows with one matching row appended
keeps exactly that row. -/
theorem filter_append_single (q : α → Bool) (l : List α) (x : α)
    (h : ∀ a ∈ l, q a = false) (hx : q x = true) :
    (l ++ [x]).filter q = [x] := by
  induction l with
  | nil => simp [hx]
  | cons y ys ih =>
    have hy : q y = false := h y (List.mem_cons_self _ _)
    simp [List.filter_cons, hy,
      ih (fun a ha => h a (List.mem_cons_of_mem _ ha))]

/-- Claim C7: completing the link flow twice for the same (user, platform,
channel id) adds exactly one row — the second completion updates the first
row's tokens and metadata in place — and any table holding at most one row
per (user, platform "youtube", channel id) key still does after an upsert. -/
theorem c7_upsert_single_row :
    (∀ db now1 now2 uid t1 t2 ch,
       db.countP (matchesKey uid ch.channel_id) = 0 →
       ((upsert_youtube_account (upsert_youtube_account db now1 uid t1 ch)
           now2 uid t2 ch).length = db.length + 1
        ∧ (upsert_youtube_account (upsert_youtube_account db now1 uid t1 ch)
            now2 uid t2 ch).countP (matchesKey uid ch.channel_id) = 1
        ∧ (upsert_youtube_account (upsert_youtube_account db now1 uid t1 ch)
            now2 uid t2 ch).filter (matchesKey uid ch.channel_id)
          = [applyTokens now2 t2 ch (newYoutubeAccount now1 uid t1 ch)]))
    ∧ (∀ db now uid toks ch uid' cid',
        db.countP (matchesKey uid' cid') ≤ 1 →
        (upsert_youtube_account db now uid toks ch).countP
          (matchesKey uid' cid') ≤ 1) := by
  constructor
  · intro db now1 now2 uid t1 t2 ch h0
    have hall : ∀ a ∈ db, matchesKey uid ch.channel_id a = false := by
      intro a ha
      have := List.countP_eq_zero.mp h0 a ha
      simpa using this
    have hany : db.any (matchesKey uid ch.channel_id) = false := by
      cases hv : db.any (matchesKey uid ch.channel_id)
      · rfl
      · rcases List.any_eq_true.mp hv with ⟨a, ha, hka⟩
        rw [hall a ha] at hka
        cases hka
    have e1 : upsert_youtube_account db now1 uid t1 ch
        = db ++ [newYoutubeAccount now1 uid t1 ch] := by
      unfold upsert_youtube_account
      rw [if_neg (by simp [hany])]
    have hany2 : (db ++ [newYoutubeAccount now1 uid t1 ch]).any
        (matchesKey uid ch.channel_id) = true :=
      List.any_eq_true.mpr ⟨newYoutubeAccount now1 uid t1 ch,
        List.mem_append_right _ (List.mem_singleton.mpr rfl),
        matchesKey_newYoutubeAccount now1 uid t1 ch⟩
    have e2 : upsert_youtube_account (upsert_youtube_account db now1 uid t1 ch)
        now2 uid t2 ch
        = db ++ [applyTokens now2 t2 ch (newYoutubeAccount now1 uid t1 ch)] := by
      rw [e1]
      unfold upsert_youtube_account
      rw [if_pos (by simp [hany2]),
        updateFirst_append_of_none _ _ _ _ hall,
        if_pos (matchesKey_newYoutubeAccount now1 uid t1 ch)]
    refine ⟨?_, ?_, ?_⟩
    · rw [e2]; simp
    · rw [e2, List.countP_append, h0]
      simp [List.countP_cons, matchesKey_applyTokens,
        matchesKey_newYoutubeAccount]
    · rw [e2]
      exact filter_append_single _ _ _ hall
        (by rw [matchesKey_applyTokens]
            exact matchesKey_newYoutubeAccount now1 uid t1 ch)
  · intro db now uid toks ch uid' cid' hle
    unfold upsert_youtube_account
    split
    · rw [countP_updateFirst _ _ _ (matchesKey_applyTokens uid' cid' now toks ch)]
      exact hle
    · rename_i hany
      rw [List.countP_append]
      by_cases hk : matchesKey uid' cid' (newYoutubeAccount now uid toks ch) = true
      · rcases matchesKey_newYoutubeAccount_inv uid' cid' uid now toks ch hk with
          ⟨rfl, rfl⟩
        have h0 : db.countP (matchesKey uid' ch.channel_id) = 0 := by
          apply List.countP_eq_zero.mpr
          intro a ha
          intro hka
          exact hany (List.any_eq_true.mpr ⟨a, ha, hka⟩)
        rw [h0]
        simp [List.countP_cons, hk]
      · have hk' : matchesKey uid' cid' (newYoutubeAccount now uid toks ch)
            = false := by
          cases hv : matchesKey uid' cid' (newYoutubeAccount now uid toks ch)
          · rfl
          · exact absurd hv hk
        have : ([newYoutubeAccount now uid toks ch] : List SocialAccount).countP
            (matchesKey uid' cid') = 0 := by
          simp [List.countP_cons, hk']
        omega

/-- Witness for `c7_upsert_single_row`: linking the same channel twice on an
empty table yields one row carrying the second token bundle. -/
theorem c7_witness :
    (upsert_youtube_account (upsert_youtube_account [] 0 uuidA toksA chanA)
        1 uuidA toksB chanA).length = 1
    ∧ (upsert_youtube_account (upsert_youtube_account [] 0 uuidA toksA chanA)
        1 uuidA toksB chanA).filter (matchesKey uuidA chanA.channel_id)
      = [applyTokens 1 toksB chanA (newYoutubeAccount 0 uuidA toksA chanA)] := by
  have h := c7_upsert_single_row.1 [] 0 1 uuidA toksA toksB chanA rfl
  exact ⟨h.1, h.2.2⟩

end App
